import Mathlib

/-!
Verification of the SkillSync job-board schema, row-level-security policies,
triggers and client mutation handlers, shallowly embedded from the SQL
migration and the TypeScript pages.

Conventions of the embedding:
  * UUIDs and timestamps are modelled as `Nat`.
  * A table is a `List` of row structures holding exactly the columns of the
    SQL schema (nullable columns become `Option`, `TEXT[]` becomes
    `List String`).
  * `auth.uid()` is passed explicitly as the `uid` argument of every
    data-layer operation; each operation first evaluates the row-level
    security policy of the SQL source, then the foreign-key and uniqueness
    constraints, and returns `Except PgError DB`.
  * The `updated_at` triggers are the functions `update_updated_at_column`
    applied by the update operations before the write commits.
-/

set_option linter.unusedVariables false

namespace SkillSync

/-- SQL: CREATE TYPE user_role AS ENUM ('job_seeker', 'recruiter', 'admin'). -/
inductive UserRole where
  | job_seeker
  | recruiter
  | admin
deriving DecidableEq, Repr

/-- SQL: CREATE TYPE application_status AS ENUM
('applied', 'viewed', 'shortlisted', 'rejected', 'hired'). -/
inductive ApplicationStatus where
  | applied
  | viewed
  | shortlisted
  | rejected
  | hired
deriving DecidableEq, Repr

/-- SQL: CREATE TYPE job_status AS ENUM ('open', 'closed', 'paused'). -/
inductive JobStatus where
  | «open»
  | closed
  | paused
deriving DecidableEq, Repr

/-- UUID columns, modelled as naturals. -/
abbrev Uuid := Nat

/-- TIMESTAMP WITH TIME ZONE columns, modelled as naturals. -/
abbrev Timestamp := Nat

/-- Row of the `profiles` table (SQL schema lines 11-26). -/
structure Profile where
  id : Uuid
  email : String
  full_name : String
  role : UserRole
  phone : Option String
  location : Option String
  bio : Option String
  company_name : Option String
  resume_url : Option String
  profile_image_url : Option String
  skills : Option (List String)
  experience_years : Option Int
  created_at : Timestamp
  updated_at : Timestamp
deriving DecidableEq, Repr

/-- Row of the `jobs` table (SQL schema lines 29-46). -/
structure Job where
  id : Uuid
  recruiter_id : Uuid
  title : String
  description : String
  company_name : String
  location : String
  job_type : String
  salary_min : Option Int
  salary_max : Option Int
  required_skills : List String
  experience_required : Option Int
  status : JobStatus
  views_count : Int
  applications_count : Int
  created_at : Timestamp
  updated_at : Timestamp
deriving DecidableEq, Repr

/-- Row of the `applications` table (SQL schema lines 49-59). -/
structure Application where
  id : Uuid
  job_id : Uuid
  applicant_id : Uuid
  status : ApplicationStatus
  cover_letter : Option String
  resume_url : Option String
  applied_at : Timestamp
  updated_at : Timestamp
deriving DecidableEq, Repr

/-- Row of the `saved_jobs` table (SQL schema lines 62-68). -/
structure SavedJob where
  id : Uuid
  job_id : Uuid
  user_id : Uuid
  saved_at : Timestamp
deriving DecidableEq, Repr

/-- The four application tables of the database. -/
structure DB where
  profiles : List Profile
  jobs : List Job
  applications : List Application
  saved_jobs : List SavedJob
deriving DecidableEq, Repr

/-- Postgres failure classes surfaced to the client, with their SQLSTATE codes. -/
inductive PgError where
  | unique_violation
  | foreign_key_violation
  | rls_violation
deriving DecidableEq, Repr

/-- SQLSTATE code string of each failure class (23505 = unique_violation,
23503 = foreign_key_violation, 42501 = insufficient_privilege). -/
def PgError.code : PgError → String
  | .unique_violation => "23505"
  | .foreign_key_violation => "23503"
  | .rls_violation => "42501"

/-- RLS policy "Anyone can view open jobs" ON jobs FOR SELECT:
USING (status = 'open' OR recruiter_id = auth.uid()). -/
def jobs_select_policy (uid : Uuid) (j : Job) : Bool :=
  j.status == JobStatus.«open» || j.recruiter_id == uid

/-- RLS policy "Recruiters can create jobs" ON jobs FOR INSERT:
WITH CHECK (recruiter_id = auth.uid() AND EXISTS (SELECT 1 FROM profiles
WHERE id = auth.uid() AND role = 'recruiter')). -/
def jobs_insert_policy (db : DB) (uid : Uuid) (j : Job) : Bool :=
  j.recruiter_id == uid &&
    db.profiles.any (fun p => p.id == uid && p.role == UserRole.recruiter)

/-- RLS policy "Recruiters can update own jobs" ON jobs FOR UPDATE:
USING (recruiter_id = auth.uid()). -/
def jobs_update_policy (uid : Uuid) (j : Job) : Bool :=
  j.recruiter_id == uid

/-- RLS policy "Recruiters can delete own jobs" ON jobs FOR DELETE:
USING (recruiter_id = auth.uid()). -/
def jobs_delete_policy (uid : Uuid) (j : Job) : Bool :=
  j.recruiter_id == uid

/-- RLS policy "Users can view own applications" ON applications FOR SELECT:
USING (applicant_id = auth.uid() OR EXISTS (SELECT 1 FROM jobs WHERE
jobs.id = applications.job_id AND jobs.recruiter_id = auth.uid())). -/
def applications_select_policy (db : DB) (uid : Uuid) (a : Application) : Bool :=
  a.applicant_id == uid ||
    db.jobs.any (fun j => j.id == a.job_id && j.recruiter_id == uid)

/-- RLS policy "Job seekers can create applications" ON applications FOR INSERT:
WITH CHECK (applicant_id = auth.uid() AND EXISTS (SELECT 1 FROM profiles
WHERE id = auth.uid() AND role = 'job_seeker')). -/
def applications_insert_policy (db : DB) (uid : Uuid) (a : Application) : Bool :=
  a.applicant_id == uid &&
    db.profiles.any (fun p => p.id == uid && p.role == UserRole.job_seeker)

/-- RLS policy "Recruiters can update application status" ON applications FOR
UPDATE: USING (EXISTS (SELECT 1 FROM jobs WHERE jobs.id = applications.job_id
AND jobs.recruiter_id = auth.uid())). -/
def applications_update_policy (db : DB) (uid : Uuid) (a : Application) : Bool :=
  db.jobs.any (fun j => j.id == a.job_id && j.recruiter_id == uid)

/-- RLS policy "Users can save jobs" ON saved_jobs FOR INSERT:
WITH CHECK (user_id = auth.uid()). -/
def saved_jobs_insert_policy (uid : Uuid) (s : SavedJob) : Bool :=
  s.user_id == uid

/-- RLS policy "Users can unsave jobs" ON saved_jobs FOR DELETE:
USING (user_id = auth.uid()). -/
def saved_jobs_delete_policy (uid : Uuid) (s : SavedJob) : Bool :=
  s.user_id == uid

/-- RLS policy "Users can update own profile" ON profiles FOR UPDATE:
USING (auth.uid() = id). -/
def profiles_update_policy (uid : Uuid) (p : Profile) : Bool :=
  uid == p.id

/-- Trigger function update_updated_at_column applied to `profiles` rows
(BEFORE UPDATE): NEW.updated_at = NOW(). -/
def Profile.update_updated_at_column (p : Profile) (now : Timestamp) : Profile :=
  { p with updated_at := now }

/-- Trigger function update_updated_at_column applied to `jobs` rows
(BEFORE UPDATE): NEW.updated_at = NOW(). -/
def Job.update_updated_at_column (j : Job) (now : Timestamp) : Job :=
  { j with updated_at := now }

/-- Trigger function update_updated_at_column applied to `applications` rows
(BEFORE UPDATE): NEW.updated_at = NOW(). -/
def Application.update_updated_at_column (a : Application) (now : Timestamp) : Application :=
  { a with updated_at := now }

/-- The trigger function handle_new_user reads NEW.raw_user_meta_data as a
JSON object; the ->> operator is a key lookup returning NULL when absent. -/
structure AuthUser where
  id : Uuid
  email : String
  raw_user_meta_data : List (String × String)
deriving DecidableEq, Repr

/-- The JSON ->> operator on the metadata object: value at a key, if present. -/
def jsonLookup (m : List (String × String)) (k : String) : Option String :=
  (m.find? (fun kv => kv.1 == k)).map (fun kv => kv.2)

/-- Trigger function handle_new_user (AFTER INSERT ON auth.users):
INSERT INTO public.profiles (id, email, full_name) VALUES
(NEW.id, NEW.email, COALESCE(NEW.raw_user_meta_data->>'full_name', 'User')).
All remaining columns take their schema defaults: role 'job_seeker',
nullable columns NULL, created_at and updated_at NOW().  Runs SECURITY
DEFINER, so no RLS check applies to the insert. -/
def handle_new_user (db : DB) (u : AuthUser) (now : Timestamp) : DB :=
  { db with
    profiles := db.profiles ++ [{
      id := u.id
      email := u.email
      full_name := (jsonLookup u.raw_user_meta_data "full_name").getD "User"
      role := UserRole.job_seeker
      phone := none
      location := none
      bio := none
      company_name := none
      resume_url := none
      profile_image_url := none
      skills := none
      experience_years := none
      created_at := now
      updated_at := now }] }

/-- SELECT on `jobs` as seen by identity `uid`: RLS filters the rows through
jobs_select_policy. -/
def selectJobs (db : DB) (uid : Uuid) : List Job :=
  db.jobs.filter (jobs_select_policy uid)

/-- INSERT of a row into `jobs` by identity `uid`: RLS WITH CHECK, then the
recruiter_id foreign key, then commit by appending the row. -/
def insertJob (db : DB) (uid : Uuid) (j : Job) : Except PgError DB :=
  if !jobs_insert_policy db uid j then .error .rls_violation
  else if !db.profiles.any (fun p => p.id == j.recruiter_id) then
    .error .foreign_key_violation
  else .ok { db with jobs := db.jobs ++ [j] }

/-- UPDATE on `jobs` by identity `uid` targeting id = jobId with row
transform `f` (the SET clause): RLS USING restricts the visible rows, the
BEFORE UPDATE trigger stamps updated_at; rows outside the policy are
untouched. -/
def updateJob (db : DB) (uid : Uuid) (jobId : Uuid) (f : Job → Job)
    (now : Timestamp) : DB :=
  { db with
    jobs := db.jobs.map (fun j =>
      if j.id == jobId && jobs_update_policy uid j
      then Job.update_updated_at_column (f j) now else j) }

/-- DELETE on `jobs` by identity `uid` targeting id = jobId: RLS USING
restricts the deletable rows; ON DELETE CASCADE removes the `applications`
and `saved_jobs` rows referencing a deleted job. -/
def deleteJob (db : DB) (uid : Uuid) (jobId : Uuid) : DB :=
  let removed := fun (j : Job) => j.id == jobId && jobs_delete_policy uid j
  { db with
    jobs := db.jobs.filter (fun j => !removed j)
    applications := db.applications.filter (fun a =>
      !db.jobs.any (fun j => removed j && a.job_id == j.id))
    saved_jobs := db.saved_jobs.filter (fun s =>
      !db.jobs.any (fun j => removed j && s.job_id == j.id)) }

/-- INSERT of a row into `applications` by identity `uid`: RLS WITH CHECK,
the two foreign keys, the UNIQUE(job_id, applicant_id) constraint, then
commit by appending the row. -/
def insertApplication (db : DB) (uid : Uuid) (a : Application) : Except PgError DB :=
  if !applications_insert_policy db uid a then .error .rls_violation
  else if !db.jobs.any (fun j => j.id == a.job_id) then
    .error .foreign_key_violation
  else if !db.profiles.any (fun p => p.id == a.applicant_id) then
    .error .foreign_key_violation
  else if db.applications.any (fun b =>
      b.job_id == a.job_id && b.applicant_id == a.applicant_id) then
    .error .unique_violation
  else .ok { db with applications := db.applications ++ [a] }

/-- UPDATE on `applications` by identity `uid` targeting id = appId with row
transform `f` (the SET clause): RLS USING restricts the visible rows, the
BEFORE UPDATE trigger overwrites updated_at with NOW(); rows outside the
policy are untouched. -/
def updateApplication (db : DB) (uid : Uuid) (appId : Uuid)
    (f : Application → Application) (now : Timestamp) : DB :=
  { db with
    applications := db.applications.map (fun a =>
      if a.id == appId && applications_update_policy db uid a
      then Application.update_updated_at_column (f a) now else a) }

/-- INSERT of a row into `saved_jobs` by identity `uid`: RLS WITH CHECK,
the two foreign keys, the UNIQUE(job_id, user_id) constraint, then commit
by appending the row. -/
def insertSavedJob (db : DB) (uid : Uuid) (s : SavedJob) : Except PgError DB :=
  if !saved_jobs_insert_policy uid s then .error .rls_violation
  else if !db.jobs.any (fun j => j.id == s.job_id) then
    .error .foreign_key_violation
  else if !db.profiles.any (fun p => p.id == s.user_id) then
    .error .foreign_key_violation
  else if db.saved_jobs.any (fun t =>
      t.job_id == s.job_id && t.user_id == s.user_id) then
    .error .unique_violation
  else .ok { db with saved_jobs := db.saved_jobs ++ [s] }

/-- DELETE on `saved_jobs` by identity `uid` with the client's filters
.eq("user_id", uid).eq("job_id", jobId) (toggleSaveJob, JobDetails.tsx
lines 311-316), intersected with the RLS USING predicate. -/
def deleteSavedJob (db : DB) (uid : Uuid) (jobId : Uuid) : DB :=
  { db with
    saved_jobs := db.saved_jobs.filter (fun s =>
      !(s.user_id == uid && s.job_id == jobId && saved_jobs_delete_policy uid s)) }

/-- UPDATE on `profiles` by identity `uid` targeting id = uid with row
transform `f` (the SET clause): RLS USING restricts the visible rows, the
BEFORE UPDATE trigger stamps updated_at. -/
def updateProfileRow (db : DB) (uid : Uuid) (f : Profile → Profile)
    (now : Timestamp) : DB :=
  { db with
    profiles := db.profiles.map (fun p =>
      if p.id == uid && profiles_update_policy uid p
      then Profile.update_updated_at_column (f p) now else p) }

/-- Outcome of handleApply (JobDetails.tsx lines 46-72) as shown to the user:
the sign-in redirect, the success toast, the "You've already applied to this
job" toast, or the generic "Failed to submit application" toast. -/
inductive ApplyOutcome where
  | notSignedIn
  | success
  | alreadyApplied
  | failed
deriving DecidableEq, Repr

/-- The `applications` row built by the insert of handleApply: the client
supplies job_id, applicant_id and status "applied"; id, cover_letter,
resume_url, applied_at and updated_at take their schema defaults. -/
def mkApplicationRow (appId jobId applicantId : Uuid) (now : Timestamp) : Application :=
  { id := appId
    job_id := jobId
    applicant_id := applicantId
    status := ApplicationStatus.applied
    cover_letter := none
    resume_url := none
    applied_at := now
    updated_at := now }

/-- handleApply (JobDetails.tsx lines 46-72): redirect when signed out;
otherwise INSERT INTO applications and map error code "23505" to the
"already applied" outcome and every other error to the generic failure. -/
def handleApply (db : DB) (user : Option Uuid) (appId jobId : Uuid)
    (now : Timestamp) : ApplyOutcome × DB :=
  match user with
  | none => (.notSignedIn, db)
  | some uid =>
    match insertApplication db uid (mkApplicationRow appId jobId uid now) with
    | .ok db' => (.success, db')
    | .error e =>
      if e.code == "23505" then (.alreadyApplied, db) else (.failed, db)

/-- JavaScript s.split(sep) for a one-character separator, on strings
modelled as character lists: "".split(",") = [""], and a trailing separator
yields a trailing empty segment. -/
def jsSplit (sep : Char) : List Char → List (List Char)
  | [] => [[]]
  | c :: cs =>
    match jsSplit sep cs with
    | [] => [[c]]
    | t :: ts => if c == sep then [] :: t :: ts else (c :: t) :: ts

/-- JavaScript s.trim() on strings modelled as character lists: drop leading
and trailing whitespace. -/
def jsTrim (s : List Char) : List Char :=
  ((s.dropWhile Char.isWhitespace).reverse.dropWhile Char.isWhitespace).reverse

/-- The required-skills parser of handleSubmit (PostJob, part_001 lines
47-50): formData.required_skills.split(",").map(s => s.trim())
.filter(s => s.length > 0). -/
def parseSkills (s : List Char) : List (List Char) :=
  (((jsSplit ',' s).map jsTrim).filter (fun t => 0 < t.length))

/-- JavaScript parseInt on a numeric-input field, modelled as Option-valued
integer parsing (NaN becomes none). -/
def jsParseInt (s : String) : Option Int :=
  s.toInt?

/-- JavaScript `parseInt(s) || null`: 0 and NaN are both falsy, so both
collapse to null. -/
def jsParseIntOrNull (s : String) : Option Int :=
  match jsParseInt s with
  | none => none
  | some n => if n == 0 then none else some n

/-- The job-posting form state of PostJob (part_001 lines 17-28); every
field is the raw string of the input control. -/
structure JobForm where
  title : String
  company_name : String
  description : String
  location : String
  job_type : String
  salary_min : String
  salary_max : String
  experience_level : String
  required_skills : List Char
deriving DecidableEq, Repr

/-- The `jobs` row built by the insert of handleSubmit (PostJob, part_001
lines 52-63): the client supplies the listed columns; id, status,
views_count, applications_count, created_at and updated_at take their
schema defaults ('open', 0, 0, NOW()). -/
def mkJobRow (jobId recruiterId : Uuid) (form : JobForm) (now : Timestamp) : Job :=
  { id := jobId
    recruiter_id := recruiterId
    title := form.title
    description := form.description
    company_name := form.company_name
    location := form.location
    job_type := form.job_type
    salary_min := if form.salary_min == "" then none else jsParseInt form.salary_min
    salary_max := if form.salary_max == "" then none else jsParseInt form.salary_max
    required_skills := (parseSkills form.required_skills).map (fun t => String.mk t)
    experience_required :=
      if form.experience_level == "" then none else jsParseInt form.experience_level
    status := JobStatus.«open»
    views_count := 0
    applications_count := 0
    created_at := now
    updated_at := now }

/-- handleSubmit (PostJob, part_001 lines 30-82): INSERT INTO jobs with the
parsed form; on error the database is unchanged. -/
def handlePostJob (db : DB) (uid : Uuid) (jobId : Uuid) (form : JobForm)
    (now : Timestamp) : DB :=
  match insertJob db uid (mkJobRow jobId uid form now) with
  | .ok db' => db'
  | .error _ => db

/-- The `saved_jobs` row built by the insert of toggleSaveJob (JobDetails.tsx
lines 325-327): the client supplies user_id and job_id; id and saved_at take
their schema defaults. -/
def mkSavedJobRow (rowId jobId userId : Uuid) (now : Timestamp) : SavedJob :=
  { id := rowId
    job_id := jobId
    user_id := userId
    saved_at := now }

/-- The save branch of toggleSaveJob (JobDetails.tsx lines 324-334): INSERT
INTO saved_jobs; on error the database is unchanged. -/
def saveJob (db : DB) (uid : Uuid) (rowId jobId : Uuid) (now : Timestamp) : DB :=
  match insertSavedJob db uid (mkSavedJobRow rowId jobId uid now) with
  | .ok db' => db'
  | .error _ => db

/-- updateApplicationStatus (Applicants.tsx lines 85-103): UPDATE
applications SET status = newStatus WHERE id = applicationId; the RLS policy
and the updated_at trigger apply at the data layer. -/
def handleUpdateApplicationStatus (db : DB) (uid : Uuid) (applicationId : Uuid)
    (newStatus : ApplicationStatus) (now : Timestamp) : DB :=
  updateApplication db uid applicationId (fun a => { a with status := newStatus }) now

/-- The profile form values read by handleSubmit (Profile, part_001 lines
291-321), one component per FormData field plus the client-state skills. -/
structure ProfileForm where
  full_name : String
  phone : String
  location_text : String
  bio_text : String
  company_name : String
  experience_years : String
deriving DecidableEq, Repr

/-- The `updates` object of handleSubmit (Profile, part_001 lines 298-306):
company_name only for recruiters, experience_years (parseInt || null) only
for job seekers, skills from the client state. -/
def mkProfileUpdates (form : ProfileForm) (role : UserRole)
    (clientSkills : Option (List String)) (p : Profile) : Profile :=
  { p with
    full_name := form.full_name
    phone := some form.phone
    location := some form.location_text
    bio := some form.bio_text
    company_name :=
      if role == UserRole.recruiter then some form.company_name else none
    experience_years :=
      if role == UserRole.job_seeker
      then jsParseIntOrNull form.experience_years else none
    skills := clientSkills }

/-- handleSubmit (Profile, part_001 lines 291-321): UPDATE profiles SET
updates WHERE id = user.id. -/
def handleProfileSubmit (db : DB) (uid : Uuid) (form : ProfileForm)
    (role : UserRole) (clientSkills : Option (List String))
    (now : Timestamp) : DB :=
  updateProfileRow db uid (mkProfileUpdates form role clientSkills) now

/-- A file selected in the resume input: its name and its size in bytes. -/
structure ResumeFile where
  name : String
  size : Nat
deriving DecidableEq, Repr

/-- An object path in the "resumes" storage bucket: the identity id as the
top-level folder segment, then the object name. -/
abbrev StoragePath := Uuid × String

/-- The "resumes" storage bucket together with the database. -/
structure ClientState where
  storage : List (StoragePath × ResumeFile)
  db : DB
deriving DecidableEq, Repr

/-- storage.upload(path, file, upsert: true): replace the object at the
path when present, otherwise add it. -/
def storageUpsert (objs : List (StoragePath × ResumeFile)) (path : StoragePath)
    (file : ResumeFile) : List (StoragePath × ResumeFile) :=
  if objs.any (fun o => o.1 == path)
  then objs.map (fun o => if o.1 == path then (path, file) else o)
  else objs ++ [(path, file)]

/-- file.name.split('.').pop(): the segment after the last dot. -/
def fileExtension (name : String) : String :=
  ((name.splitOn ".").getLast?).getD ""

/-- storage.getPublicUrl(path) for the "resumes" bucket. -/
def getPublicUrl (path : StoragePath) : String :=
  "/storage/v1/object/public/resumes/" ++ toString path.1 ++ "/" ++ path.2

/-- handleResumeUpload (Profile, part_001 lines 323-361): return when no
file is selected or no user is signed in; reject files over 5 * 1024 * 1024
bytes before any storage or database write; otherwise upsert the object at
uid/resume.ext and UPDATE profiles SET resume_url = publicUrl WHERE
id = user.id. -/
def handleResumeUpload (st : ClientState) (user : Option Uuid)
    (file : Option ResumeFile) (now : Timestamp) : ClientState :=
  match file, user with
  | none, _ => st
  | some _, none => st
  | some f, some uid =>
    if 5 * 1024 * 1024 < f.size then st
    else
      let path : StoragePath := (uid, "resume." ++ fileExtension f.name)
      let url := getPublicUrl path
      { storage := storageUpsert st.storage path f
        db := updateProfileRow st.db uid (fun p => { p with resume_url := some url }) now }

/-- One client-visible mutation of the system: every code path of the source
that writes the database, plus the pure job-details read (viewJob). -/
inductive Op where
  | signup (u : AuthUser) (now : Timestamp)
  | postJob (uid jobId : Uuid) (form : JobForm) (now : Timestamp)
  | viewJob (user : Option Uuid) (jobId : Uuid)
  | applyToJob (user : Option Uuid) (appId jobId : Uuid) (now : Timestamp)
  | save (uid rowId jobId : Uuid) (now : Timestamp)
  | unsave (uid jobId : Uuid)
  | setApplicationStatus (uid appId : Uuid) (s : ApplicationStatus) (now : Timestamp)
  | setJobStatus (uid jobId : Uuid) (s : JobStatus) (now : Timestamp)
  | removeJob (uid jobId : Uuid)
  | editProfile (uid : Uuid) (form : ProfileForm) (role : UserRole)
      (clientSkills : Option (List String)) (now : Timestamp)
  | setResumeUrl (uid : Uuid) (url : String) (now : Timestamp)

/-- The database transition of each operation. fetchJobDetails (viewJob) is
a pure SELECT: no column of any row changes. -/
def step (db : DB) : Op → DB
  | .signup u now => handle_new_user db u now
  | .postJob uid jobId form now => handlePostJob db uid jobId form now
  | .viewJob _ _ => db
  | .applyToJob user appId jobId now => (handleApply db user appId jobId now).2
  | .save uid rowId jobId now => saveJob db uid rowId jobId now
  | .unsave uid jobId => deleteSavedJob db uid jobId
  | .setApplicationStatus uid appId s now =>
      handleUpdateApplicationStatus db uid appId s now
  | .setJobStatus uid jobId s now =>
      updateJob db uid jobId (fun j => { j with status := s }) now
  | .removeJob uid jobId => deleteJob db uid jobId
  | .editProfile uid form role clientSkills now =>
      handleProfileSubmit db uid form role clientSkills now
  | .setResumeUrl uid url now =>
      updateProfileRow db uid (fun p => { p with resume_url := some url }) now

/-- Run a sequence of operations from an initial database. -/
def run (db : DB) : List Op → DB
  | [] => db
  | op :: ops => run (step db op) ops

/-- Both denormalized counters of every job row are zero. -/
def countersZero (db : DB) : Prop :=
  ∀ j ∈ db.jobs, j.views_count = 0 ∧ j.applications_count = 0

instance (db : DB) : Decidable (countersZero db) := by
  unfold countersZero; infer_instance

/-- Concrete fixture: a job-seeker profile with identity 1. -/
def seekerProfile : Profile :=
  { id := 1
    email := "s@x.io"
    full_name := "Sam"
    role := UserRole.job_seeker
    phone := none
    location := none
    bio := none
    company_name := none
    resume_url := none
    profile_image_url := none
    skills := none
    experience_years := none
    created_at := 0
    updated_at := 0 }

/-- Concrete fixture: a recruiter profile with identity 2. -/
def recruiterProfile : Profile :=
  { id := 2
    email := "r@x.io"
    full_name := "Rae"
    role := UserRole.recruiter
    phone := none
    location := none
    bio := none
    company_name := some "Acme"
    resume_url := none
    profile_image_url := none
    skills := none
    experience_years := none
    created_at := 0
    updated_at := 0 }

/-- Concrete fixture: an open job owned by recruiter 2. -/
def openJob : Job :=
  { id := 10
    recruiter_id := 2
    title := "Dev"
    description := "d"
    company_name := "Acme"
    location := "Remote"
    job_type := "full-time"
    salary_min := none
    salary_max := none
    required_skills := ["TS"]
    experience_required := none
    status := JobStatus.«open»
    views_count := 0
    applications_count := 0
    created_at := 0
    updated_at := 0 }

/-- Concrete fixture: a closed job owned by recruiter 2. -/
def closedJob : Job :=
  { openJob with id := 11, status := JobStatus.closed }

/-- Concrete fixture: an application by seeker 1 to job 10. -/
def sampleApplication : Application :=
  mkApplicationRow 20 10 1 3

/-- Concrete fixture database: two profiles, two jobs, one application. -/
def sampleDB : DB :=
  { profiles := [seekerProfile, recruiterProfile]
    jobs := [openJob, closedJob]
    applications := [sampleApplication]
    saved_jobs := [] }

/-- Concrete fixture client state over sampleDB with an empty bucket. -/
def sampleClientState : ClientState :=
  { storage := [], db := sampleDB }

/-- Claim C3: a SELECT of job J by caller C is permitted if and only if
J.status = open or J.recruiter_id = C; a non-open job is invisible to every
other identity, while its owning recruiter reads it regardless of status. -/
theorem job_visible_iff_open_or_owner (db : DB) (uid : Uuid) (j : Job) :
    j ∈ selectJobs db uid ↔
      j ∈ db.jobs ∧ (j.status = JobStatus.«open» ∨ j.recruiter_id = uid) := by
  simp [selectJobs, List.mem_filter, jobs_select_policy]

/-- Instantiation of job_visible_iff_open_or_owner: the closed job of the
fixture, read by its owning recruiter. -/
theorem job_visible_iff_open_or_owner_witness :
    closedJob ∈ selectJobs sampleDB 2 ↔
      closedJob ∈ sampleDB.jobs ∧
        (closedJob.status = JobStatus.«open» ∨ closedJob.recruiter_id = 2) :=
  job_visible_iff_open_or_owner sampleDB 2 closedJob

/-- Claim C4: an UPDATE or DELETE on a job by a caller who is not the owning
recruiter is rejected by the row-level policy and the row is left completely
unchanged: the untouched row is still present after either operation,
whatever SET transform the client attempted. -/
theorem foreign_job_write_rejected (db : DB) (uid jobId : Uuid) (f : Job → Job)
    (now : Timestamp) (j : Job) (hj : j ∈ db.jobs) (hne : j.recruiter_id ≠ uid) :
    j ∈ (updateJob db uid jobId f now).jobs ∧ j ∈ (deleteJob db uid jobId).jobs := by
  have hpol : (j.recruiter_id == uid) = false := by simpa using hne
  constructor
  · have hmem := List.mem_map_of_mem
      (fun j' => if j'.id == jobId && jobs_update_policy uid j'
        then Job.update_updated_at_column (f j') now else j') hj
    simpa [updateJob, jobs_update_policy, hpol] using hmem
  · simp [deleteJob, List.mem_filter, jobs_delete_policy, hpol, hj]

/-- Instantiation of foreign_job_write_rejected: seeker 1 attempting to
rewrite or delete recruiter 2's open job. -/
theorem foreign_job_write_rejected_witness :
    openJob ∈ (updateJob sampleDB 1 10 (fun j => { j with title := "x" }) 5).jobs ∧
      openJob ∈ (deleteJob sampleDB 1 10).jobs :=
  foreign_job_write_rejected sampleDB 1 10 (fun j => { j with title := "x" }) 5
    openJob (by decide) (by decide)

/-- Claim C7: deleting a job cascades: afterwards no application row and no
saved-job row referencing the deleted job's id remains in the store. -/
theorem delete_job_cascades (db : DB) (uid jobId : Uuid) (j : Job)
    (hj : j ∈ db.jobs) (hid : j.id = jobId) (hrec : j.recruiter_id = uid) :
    (∀ a ∈ (deleteJob db uid jobId).applications, a.job_id ≠ jobId) ∧
      (∀ s ∈ (deleteJob db uid jobId).saved_jobs, s.job_id ≠ jobId) := by
  constructor
  · intro a ha hcon
    simp only [deleteJob, List.mem_filter, Bool.not_eq_true',
      List.any_eq_false] at ha
    exact ha.2 j hj (by simp [jobs_delete_policy, hid, hrec, hcon])
  · intro s hs hcon
    simp only [deleteJob, List.mem_filter, Bool.not_eq_true',
      List.any_eq_false] at hs
    exact hs.2 j hj (by simp [jobs_delete_policy, hid, hrec, hcon])

/-- Instantiation of delete_job_cascades: recruiter 2 deleting job 10, which
seeker 1 has applied to. -/
theorem delete_job_cascades_witness :
    (∀ a ∈ (deleteJob sampleDB 2 10).applications, a.job_id ≠ 10) ∧
      (∀ s ∈ (deleteJob sampleDB 2 10).saved_jobs, s.job_id ≠ 10) :=
  delete_job_cascades sampleDB 2 10 openJob (by decide) (by decide) (by decide)

/-- Claim C10: a resume file larger than 5 * 1024 * 1024 bytes is rejected
before any storage upload or profile update: the bucket and the database,
hence the profile's resume_url, are unchanged by the attempt. -/
theorem oversized_resume_upload_rejected (st : ClientState) (uid : Uuid)
    (f : ResumeFile) (now : Timestamp) (h : 5 * 1024 * 1024 < f.size) :
    (handleResumeUpload st (some uid) (some f) now).storage = st.storage ∧
      (handleResumeUpload st (some uid) (some f) now).db = st.db := by
  simp [handleResumeUpload, h]

/-- Instantiation of oversized_resume_upload_rejected: a 6 MB file uploaded
by seeker 1. -/
theorem oversized_resume_upload_rejected_witness :
    (handleResumeUpload sampleClientState (some 1)
        (some { name := "r.pdf", size := 6291456 }) 7).storage =
      sampleClientState.storage ∧
      (handleResumeUpload sampleClientState (some 1)
          (some { name := "r.pdf", size := 6291456 }) 7).db =
        sampleClientState.db :=
  oversized_resume_upload_rejected sampleClientState 1
    { name := "r.pdf", size := 6291456 } 7 (by decide)

/-- Claim C2: creating an identity yields exactly one profile row whose id is
the identity's id, whose email is copied from the identity, whose role is
job_seeker, and whose full_name is the metadata's full_name or "User" when
that metadata field is absent. -/
theorem signup_creates_exactly_one_profile (db : DB) (u : AuthUser)
    (now : Timestamp) (h : ∀ p ∈ db.profiles, p.id ≠ u.id) :
    (handle_new_user db u now).profiles.filter (fun p => p.id == u.id) =
      [{ id := u.id
         email := u.email
         full_name := (jsonLookup u.raw_user_meta_data "full_name").getD "User"
         role := UserRole.job_seeker
         phone := none
         location := none
         bio := none
         company_name := none
         resume_url := none
         profile_image_url := none
         skills := none
         experience_years := none
         created_at := now
         updated_at := now }] := by
  rw [handle_new_user]
  simp only [List.filter_append]
  rw [List.filter_eq_nil_iff.mpr (fun p hp => by simpa using h p hp)]
  simp

/-- Instantiation of signup_creates_exactly_one_profile: identity 5 signs up
with a full_name in its metadata, over the fixture database. -/
theorem signup_creates_exactly_one_profile_witness :
    (handle_new_user sampleDB
        { id := 5, email := "n@x.io", raw_user_meta_data := [("full_name", "Nina")] }
        9).profiles.filter (fun p => p.id == 5) =
      [{ id := 5
         email := "n@x.io"
         full_name := "Nina"
         role := UserRole.job_seeker
         phone := none
         location := none
         bio := none
         company_name := none
         resume_url := none
         profile_image_url := none
         skills := none
         experience_years := none
         created_at := 9
         updated_at := 9 }] :=
  signup_creates_exactly_one_profile sampleDB
    { id := 5, email := "n@x.io", raw_user_meta_data := [("full_name", "Nina")] }
    9 (by decide)

/-- Claim C5: an application row may be updated only by the recruiter owning
the referenced job: the owner's status update lands with updated_at
overwritten to the current time by the trigger, overriding any
client-supplied value of updated_at carried by the SET transform, while the
applicant's own attempt leaves the row present unchanged. -/
theorem application_update_recruiter_only (db : DB) (appId : Uuid)
    (a : Application) (rid : Uuid) (s : ApplicationStatus) (now : Timestamp)
    (f : Application → Application)
    (ha : a ∈ db.applications) (hid : a.id = appId) :
    ((∃ j ∈ db.jobs, j.id = a.job_id ∧ j.recruiter_id = rid) →
      { a with status := s, updated_at := now } ∈
        (handleUpdateApplicationStatus db rid appId s now).applications) ∧
    ((∀ j ∈ db.jobs, j.id = a.job_id → j.recruiter_id ≠ a.applicant_id) →
      a ∈ (handleUpdateApplicationStatus db a.applicant_id appId s now).applications) ∧
    ((∃ j ∈ db.jobs, j.id = a.job_id ∧ j.recruiter_id = rid) →
      Application.update_updated_at_column (f a) now ∈
          (updateApplication db rid appId f now).applications ∧
        (Application.update_updated_at_column (f a) now).updated_at = now) := by
  have hpol : ∀ (u : Uuid), (∃ j ∈ db.jobs, j.id = a.job_id ∧ j.recruiter_id = u) →
      applications_update_policy db u a = true := by
    rintro u ⟨j, hj, h1, h2⟩
    simp only [applications_update_policy, List.any_eq_true]
    exact ⟨j, hj, by simp [h1, h2]⟩
  refine ⟨?_, ?_, ?_⟩
  · intro hex
    have hmem := List.mem_map_of_mem
      (fun b => if b.id == appId && applications_update_policy db rid b
        then Application.update_updated_at_column
          ((fun a' => { a' with status := s }) b) now else b) ha
    simpa [handleUpdateApplicationStatus, updateApplication, hid, hpol rid hex]
      using hmem
  · intro hnot
    have hpolf : applications_update_policy db a.applicant_id a = false := by
      simp only [applications_update_policy, List.any_eq_false]
      intro j hj
      simp only [Bool.and_eq_true, beq_iff_eq, not_and]
      exact fun h1 h2 => hnot j hj h1 h2
    have hmem := List.mem_map_of_mem
      (fun b => if b.id == appId && applications_update_policy db a.applicant_id b
        then Application.update_updated_at_column
          ((fun a' => { a' with status := s }) b) now else b) ha
    by_cases hba : a.id == appId
    · simpa [handleUpdateApplicationStatus, updateApplication, hpolf] using hmem
    · simpa [handleUpdateApplicationStatus, updateApplication, hba] using hmem
  · intro hex
    refine ⟨?_, rfl⟩
    have hmem := List.mem_map_of_mem
      (fun b => if b.id == appId && applications_update_policy db rid b
        then Application.update_updated_at_column (f b) now else b) ha
    simpa [updateApplication, hid, hpol rid hex] using hmem

/-- Instantiation of application_update_recruiter_only: recruiter 2
shortlisting seeker 1's application to job 10, the applicant's own attempt,
and a SET transform that also tries to smuggle in updated_at := 999. -/
theorem application_update_recruiter_only_witness :
    ({ sampleApplication with
        status := ApplicationStatus.shortlisted, updated_at := 8 } ∈
      (handleUpdateApplicationStatus sampleDB 2 20
        ApplicationStatus.shortlisted 8).applications) ∧
    (sampleApplication ∈
      (handleUpdateApplicationStatus sampleDB sampleApplication.applicant_id 20
        ApplicationStatus.shortlisted 8).applications) ∧
    (Application.update_updated_at_column
        ((fun a => { a with updated_at := 999 }) sampleApplication) 8 ∈
        (updateApplication sampleDB 2 20
          (fun a => { a with updated_at := 999 }) 8).applications ∧
      (Application.update_updated_at_column
        ((fun a => { a with updated_at := 999 }) sampleApplication) 8).updated_at = 8) :=
  have h := application_update_recruiter_only sampleDB 20 sampleApplication 2
    ApplicationStatus.shortlisted 8 (fun a => { a with updated_at := 999 })
    (by decide) (by decide)
  ⟨h.1 (by decide), h.2.1 (by decide), h.2.2 (by decide)⟩

/-- Claim C6: the SavedJob add and remove operations round-trip: after a
successful add of a bookmark, removing it restores the database exactly as
it was, and adding a second row with the same (job_id, user_id) pair fails
with a uniqueness violation. -/
theorem saved_job_add_remove_roundtrip (db db' : DB) (uid : Uuid) (s : SavedJob)
    (h : insertSavedJob db uid s = .ok db') :
    deleteSavedJob db' uid s.job_id = db ∧
      ∀ s₂ : SavedJob, s₂.job_id = s.job_id → s₂.user_id = s.user_id →
        insertSavedJob db' uid s₂ = .error .unique_violation := by
  rw [insertSavedJob] at h
  split at h
  · simp at h
  next h0 =>
  split at h
  · simp at h
  next h1 =>
  split at h
  · simp at h
  next h2 =>
  split at h
  · simp at h
  next h3 =>
  injection h with h
  subst h
  have huid : s.user_id = uid := by
    have := h0
    simp only [saved_jobs_insert_policy, Bool.not_eq_true', Bool.not_eq_false,
      beq_iff_eq] at this
    simpa [saved_jobs_insert_policy] using this
  have hjobs : db.jobs.any (fun j => j.id == s.job_id) = true := by
    simpa using h1
  have hprof : db.profiles.any (fun p => p.id == s.user_id) = true := by
    simpa using h2
  have huniq : db.saved_jobs.any
      (fun t => t.job_id == s.job_id && t.user_id == s.user_id) = false := by
    simpa using h3
  constructor
  · obtain ⟨dbp, dbj, dba, dbs⟩ := db
    have hself : dbs.filter (fun t =>
        !(t.user_id == uid && t.job_id == s.job_id &&
          saved_jobs_delete_policy uid t)) = dbs := by
      refine List.filter_eq_self.mpr (fun t ht => ?_)
      have hx := List.any_eq_false.mp huniq t ht
      simp only [Bool.and_eq_true, beq_iff_eq, not_and] at hx
      by_cases hu : t.user_id = uid
      · have hj : (t.job_id == s.job_id) = false := by
          simp only [beq_eq_false_iff_ne, ne_eq]
          exact fun hjid => hx hjid (by rw [hu, huid])
        simp [hj]
      · have hu' : (t.user_id == uid) = false := by
          simp only [beq_eq_false_iff_ne, ne_eq]
          exact hu
        simp [hu']
    have hsingle : [s].filter (fun t =>
        !(t.user_id == uid && t.job_id == s.job_id &&
          saved_jobs_delete_policy uid t)) = [] := by
      simp [saved_jobs_delete_policy, huid]
    simp only [deleteSavedJob, List.filter_append]
    rw [hself, hsingle]
    simp
  · intro s₂ hj2 hu2
    have c0 : saved_jobs_insert_policy uid s₂ = true := by
      simp [saved_jobs_insert_policy, hu2, huid]
    have c1 : (db.jobs.any (fun j => j.id == s₂.job_id)) = true := by
      simp only [hj2]
      exact hjobs
    have c2 : (db.profiles.any (fun p => p.id == s₂.user_id)) = true := by
      simp only [hu2]
      exact hprof
    have c3 : ((db.saved_jobs ++ [s]).any
        (fun t => t.job_id == s₂.job_id && t.user_id == s₂.user_id)) = true := by
      simp only [hj2, hu2]
      simp [List.any_append]
    rw [insertSavedJob]
    simp [c0, c1, c2, c3]

/-- Instantiation of saved_job_add_remove_roundtrip: seeker 1 bookmarks
job 10 in the fixture database, then the theorem yields the round trip and
the duplicate-save failure. -/
theorem saved_job_add_remove_roundtrip_witness :
    deleteSavedJob
        { sampleDB with saved_jobs := [mkSavedJobRow 30 10 1 4] } 1 10 = sampleDB ∧
      insertSavedJob { sampleDB with saved_jobs := [mkSavedJobRow 30 10 1 4] }
        1 (mkSavedJobRow 31 10 1 6) = .error .unique_violation :=
  have h := saved_job_add_remove_roundtrip sampleDB
    { sampleDB with saved_jobs := [mkSavedJobRow 30 10 1 4] } 1
    (mkSavedJobRow 30 10 1 4) (by rfl)
  ⟨h.1, h.2 (mkSavedJobRow 31 10 1 6) rfl rfl⟩

/-- Claim C1: after a successful application insert, a second insert with the
same (job_id, applicant_id) pair fails with a uniqueness violation rather
than silently succeeding, and handleApply maps exactly the error whose code
is 23505 to the distinguished already-applied outcome while every other
insert failure maps to the generic failure outcome, leaving the database
unchanged in both failure cases. -/
theorem duplicate_application_conflict (db db' : DB) (uid : Uuid)
    (a : Application) (h : insertApplication db uid a = .ok db') :
    (∀ a₂ : Application, a₂.job_id = a.job_id → a₂.applicant_id = a.applicant_id →
      insertApplication db' uid a₂ = .error .unique_violation) ∧
    (∀ (dbx : DB) (u appId jobId : Uuid) (now : Timestamp) (e : PgError),
      insertApplication dbx u (mkApplicationRow appId jobId u now) = .error e →
      handleApply dbx (some u) appId jobId now =
        ((if e = PgError.unique_violation then ApplyOutcome.alreadyApplied
          else ApplyOutcome.failed), dbx)) := by
  constructor
  · rw [insertApplication] at h
    split at h
    · simp at h
    next h0 =>
    split at h
    · simp at h
    next h1 =>
    split at h
    · simp at h
    next h2 =>
    split at h
    · simp at h
    next h3 =>
    injection h with h
    subst h
    have hpol : applications_insert_policy db uid a = true := by simpa using h0
    have happ_uid : a.applicant_id = uid := by
      have hx := hpol
      simp only [applications_insert_policy, Bool.and_eq_true, beq_iff_eq] at hx
      exact hx.1
    have hseeker : db.profiles.any
        (fun p => p.id == uid && p.role == UserRole.job_seeker) = true := by
      have hx := hpol
      simp only [applications_insert_policy, Bool.and_eq_true] at hx
      exact hx.2
    have hjobs : db.jobs.any (fun j => j.id == a.job_id) = true := by
      simpa using h1
    have hprof : db.profiles.any (fun p => p.id == a.applicant_id) = true := by
      simpa using h2
    intro a₂ hj2 happ2
    have c0 : (a₂.applicant_id == uid) = true := by
      simp [happ2, happ_uid]
    have c1 : (db.jobs.any (fun j => j.id == a₂.job_id)) = true := by
      simp only [hj2]
      exact hjobs
    have c2 : (db.profiles.any (fun p => p.id == a₂.applicant_id)) = true := by
      simp only [happ2]
      exact hprof
    have c3 : ((db.applications ++ [a]).any
        (fun b => b.job_id == a₂.job_id && b.applicant_id == a₂.applicant_id)) = true := by
      simp only [hj2, happ2]
      simp [List.any_append]
    rw [insertApplication]
    simp [applications_insert_policy, c0, hseeker, c1, c2, c3]
  · intro dbx u appId jobId now e he
    cases e <;> simp only [handleApply, he] <;> rfl

/-- Instantiation of duplicate_application_conflict: seeker 1 has applied to
job 11; the repeat insert raises the uniqueness violation, handleApply turns
it into the already-applied outcome, and recruiter 2's policy-rejected
attempt maps to the generic failure. -/
theorem duplicate_application_conflict_witness :
    insertApplication
        { sampleDB with applications := [sampleApplication, mkApplicationRow 21 11 1 5] }
        1 (mkApplicationRow 22 11 1 6) = .error .unique_violation ∧
      handleApply
          { sampleDB with applications := [sampleApplication, mkApplicationRow 21 11 1 5] }
          (some 1) 22 11 6 =
        (ApplyOutcome.alreadyApplied,
          { sampleDB with applications := [sampleApplication, mkApplicationRow 21 11 1 5] }) ∧
      handleApply sampleDB (some 2) 23 10 7 = (ApplyOutcome.failed, sampleDB) :=
  have h := duplicate_application_conflict sampleDB
    { sampleDB with applications := [sampleApplication, mkApplicationRow 21 11 1 5] }
    1 (mkApplicationRow 21 11 1 5) (by rfl)
  have h1 := h.1 (mkApplicationRow 22 11 1 6) rfl rfl
  ⟨h1, h.2 _ 1 22 11 6 PgError.unique_violation h1,
    h.2 sampleDB 2 23 10 7 PgError.rls_violation (by rfl)⟩

/-- A successful job insert appends exactly the supplied row to `jobs`. -/
theorem insertJob_ok_jobs {db db' : DB} {uid : Uuid} {j : Job}
    (h : insertJob db uid j = .ok db') : db'.jobs = db.jobs ++ [j] := by
  rw [insertJob] at h
  split at h
  · simp at h
  split at h
  · simp at h
  injection h with h
  subst h
  rfl

/-- A successful application insert leaves `jobs` unchanged. -/
theorem insertApplication_ok_jobs {db db' : DB} {uid : Uuid} {a : Application}
    (h : insertApplication db uid a = .ok db') : db'.jobs = db.jobs := by
  rw [insertApplication] at h
  split at h
  · simp at h
  split at h
  · simp at h
  split at h
  · simp at h
  split at h
  · simp at h
  injection h with h
  subst h
  rfl

/-- A successful saved-job insert leaves `jobs` unchanged. -/
theorem insertSavedJob_ok_jobs {db db' : DB} {uid : Uuid} {s : SavedJob}
    (h : insertSavedJob db uid s = .ok db') : db'.jobs = db.jobs := by
  rw [insertSavedJob] at h
  split at h
  · simp at h
  split at h
  · simp at h
  split at h
  · simp at h
  split at h
  · simp at h
  injection h with h
  subst h
  rfl

/-- Each single operation of the source preserves the all-counters-zero
invariant on `jobs`. -/
theorem step_countersZero {db : DB} (op : Op) (h : countersZero db) :
    countersZero (step db op) := by
  cases op with
  | signup u now => exact fun j hj => h j hj
  | postJob uid jobId form now =>
    intro j hj
    simp only [step, handlePostJob] at hj
    split at hj
    next db' heq =>
      rw [insertJob_ok_jobs heq] at hj
      rcases List.mem_append.mp hj with hj' | hj'
      · exact h j hj'
      · simp only [List.mem_singleton] at hj'
        subst hj'
        exact ⟨rfl, rfl⟩
    next => exact h j hj
  | viewJob user jobId => exact fun j hj => h j hj
  | applyToJob user appId jobId now =>
    cases user with
    | none => exact fun j hj => h j hj
    | some uid =>
      intro j hj
      simp only [step, handleApply] at hj
      split at hj
      next db' heq =>
        rw [insertApplication_ok_jobs heq] at hj
        exact h j hj
      next e heq =>
        split at hj
        · exact h j hj
        · exact h j hj
  | save uid rowId jobId now =>
    intro j hj
    simp only [step, saveJob] at hj
    split at hj
    next db' heq =>
      rw [insertSavedJob_ok_jobs heq] at hj
      exact h j hj
    next => exact h j hj
  | unsave uid jobId => exact fun j hj => h j hj
  | setApplicationStatus uid appId s now => exact fun j hj => h j hj
  | setJobStatus uid jobId s now =>
    intro j hj
    simp only [step, updateJob, List.mem_map] at hj
    obtain ⟨j', hj', rfl⟩ := hj
    have hc := h j' hj'
    by_cases hcnd : (j'.id == jobId && jobs_update_policy uid j') = true
    · simpa [hcnd, Job.update_updated_at_column] using hc
    · simpa [hcnd] using hc
  | removeJob uid jobId =>
    intro j hj
    simp only [step, deleteJob, List.mem_filter] at hj
    exact h j hj.1
  | editProfile uid form role clientSkills now => exact fun j hj => h j hj
  | setResumeUrl uid url now => exact fun j hj => h j hj

/-- Claim C8: the denormalized counters views_count and applications_count
are never modified by any operation implemented in the source: across every
sequence of operations, every job row keeps both counters at their initial
value 0. -/
theorem counters_never_change (db : DB) (ops : List Op) (h : countersZero db) :
    countersZero (run db ops) := by
  induction ops generalizing db with
  | nil => exact h
  | cons op ops ih => exact ih (step db op) (step_countersZero op h)

/-- Instantiation of counters_never_change: a view, an application, a status
change, a bookmark and a job deletion over the fixture database. -/
theorem counters_never_change_witness :
    countersZero (run sampleDB
      [Op.viewJob (some 1) 10,
       Op.applyToJob (some 1) 24 11 9,
       Op.setJobStatus 2 10 JobStatus.paused 9,
       Op.save 1 32 10 9,
       Op.removeJob 2 11]) :=
  counters_never_change sampleDB
    [Op.viewJob (some 1) 10,
     Op.applyToJob (some 1) 24 11 9,
     Op.setJobStatus 2 10 JobStatus.paused 9,
     Op.save 1 32 10 9,
     Op.removeJob 2 11] (by decide)

/-- The head surviving a dropWhile fails the predicate. -/
theorem dropWhile_head_false {α : Type} {p : α → Bool} {l : List α} {c : α}
    {r : List α} (h : l.dropWhile p = c :: r) : p c = false := by
  induction l with
  | nil => simp [List.dropWhile] at h
  | cons x xs ih =>
    rw [List.dropWhile_cons] at h
    by_cases hx : p x = true
    · exact ih (by simpa [hx] using h)
    · rw [if_neg hx] at h
      injection h with h1 h2
      subst h1
      simpa using hx

/-- dropWhile is idempotent. -/
theorem dropWhile_dropWhile {α : Type} (p : α → Bool) (l : List α) :
    (l.dropWhile p).dropWhile p = l.dropWhile p := by
  cases hl : l.dropWhile p with
  | nil => rfl
  | cons c r =>
    rw [List.dropWhile_cons, if_neg]
    simp [dropWhile_head_false hl]

/-- jsTrim is idempotent: a trimmed string trims to itself. -/
theorem jsTrim_idem (s : List Char) : jsTrim (jsTrim s) = jsTrim s := by
  have hB : ((jsTrim s).reverse).dropWhile Char.isWhitespace = (jsTrim s).reverse := by
    simp only [jsTrim, List.reverse_reverse]
    exact dropWhile_dropWhile _ _
  have hA : (jsTrim s).dropWhile Char.isWhitespace = jsTrim s := by
    cases hw : jsTrim s with
    | nil => rfl
    | cons c w' =>
      simp only [jsTrim] at hw
      obtain ⟨t, ht⟩ := List.dropWhile_suffix
        (l := (s.dropWhile Char.isWhitespace).reverse) Char.isWhitespace
      have hv : s.dropWhile Char.isWhitespace =
          ((s.dropWhile Char.isWhitespace).reverse.dropWhile Char.isWhitespace).reverse
            ++ t.reverse := by
        have hr := congrArg List.reverse ht
        simpa [List.reverse_append] using hr.symm
      rw [hw] at hv
      have hc : Char.isWhitespace c = false :=
        dropWhile_head_false (l := s) (by simpa using hv)
      rw [List.dropWhile_cons, if_neg (by simp [hc])]
  show (((jsTrim s).dropWhile Char.isWhitespace).reverse.dropWhile
      Char.isWhitespace).reverse = jsTrim s
  rw [hA, hB, List.reverse_reverse]

/-- jsSplit always returns at least one segment, as in JavaScript. -/
theorem jsSplit_ne_nil (sep : Char) (s : List Char) : jsSplit sep s ≠ [] := by
  cases s with
  | nil => simp [jsSplit]
  | cons c cs =>
    simp only [jsSplit]
    split
    · simp
    · split <;> simp

/-- Every character of a jsSplit segment comes from the input and is not the
separator. -/
theorem jsSplit_mem {sep : Char} {s t : List Char} (ht : t ∈ jsSplit sep s) :
    ∀ c ∈ t, c ∈ s ∧ c ≠ sep := by
  induction s generalizing t with
  | nil =>
    simp only [jsSplit, List.mem_singleton] at ht
    subst ht
    intro c hc
    simp at hc
  | cons x xs ih =>
    intro c hc
    simp only [jsSplit] at ht
    rcases hr : jsSplit sep xs with _ | ⟨t₀, ts⟩
    · exact absurd hr (jsSplit_ne_nil sep xs)
    · simp only [hr] at ht
      by_cases hx : (x == sep) = true
      · rw [if_pos hx] at ht
        rcases List.mem_cons.mp ht with rfl | ht'
        · simp at hc
        · have hm := ih (t := t) (by rw [hr]; exact ht') c hc
          exact ⟨List.mem_cons_of_mem x hm.1, hm.2⟩
      · rw [if_neg hx] at ht
        rcases List.mem_cons.mp ht with rfl | ht'
        · rcases List.mem_cons.mp hc with rfl | hc'
          · exact ⟨List.mem_cons_self c xs, by simpa using hx⟩
          · have hm := ih (t := t₀) (by rw [hr]; exact List.mem_cons_self t₀ ts) c hc'
            exact ⟨List.mem_cons_of_mem x hm.1, hm.2⟩
        · have hm := ih (t := t) (by rw [hr]; exact List.mem_cons_of_mem t₀ ht') c hc
          exact ⟨List.mem_cons_of_mem x hm.1, hm.2⟩

/-- A segment of whitespace only trims to the empty string. -/
theorem jsTrim_all_ws {u : List Char} (h : ∀ c ∈ u, Char.isWhitespace c = true) :
    jsTrim u = [] := by
  have h1 : u.dropWhile Char.isWhitespace = [] := List.dropWhile_eq_nil_iff.mpr h
  simp [jsTrim, h1]

/-- Claim C9: every element the required-skills parser returns is non-empty
and carries no leading or trailing whitespace (it is its own trim), and an
input consisting only of commas and whitespace parses to the empty list. -/
theorem skills_parser_trims_and_drops_empties (s : List Char) :
    (∀ t ∈ parseSkills s, t ≠ [] ∧ jsTrim t = t) ∧
      ((∀ c ∈ s, c = ',' ∨ Char.isWhitespace c = true) → parseSkills s = []) := by
  constructor
  · intro t ht
    simp only [parseSkills, List.mem_filter, List.mem_map] at ht
    obtain ⟨⟨u, hu, rfl⟩, hlen⟩ := ht
    refine ⟨?_, jsTrim_idem u⟩
    intro hnil
    rw [hnil] at hlen
    simp at hlen
  · intro hall
    simp only [parseSkills]
    refine List.filter_eq_nil_iff.mpr ?_
    intro t ht
    rw [List.mem_map] at ht
    obtain ⟨u, hu, rfl⟩ := ht
    have hz : jsTrim u = [] := jsTrim_all_ws (fun c hc =>
      (hall c (jsSplit_mem hu c hc).1).resolve_left (jsSplit_mem hu c hc).2)
    simp [hz]

/-- Instantiation of skills_parser_trims_and_drops_empties: the parsed
segment "ts" of " ts, " is non-empty and trimmed, and " , ,, " parses to
the empty list, permitting an empty required_skills array. -/
theorem skills_parser_witness :
    (['t', 's'] ≠ ([] : List Char) ∧ jsTrim ['t', 's'] = ['t', 's']) ∧
      parseSkills (String.toList " , ,, ") = [] :=
  ⟨(skills_parser_trims_and_drops_empties (String.toList " ts, ")).1
      ['t', 's'] (by decide),
    (skills_parser_trims_and_drops_empties (String.toList " , ,, ")).2 (by decide)⟩

end SkillSync
